import Mathlib

/-!
Shallow embedding of the NMEA 2000 fast-packet / framing core of
`custom_components/nmea2000` (files `sensorCommon.py`, `SerialSensor.py`,
`TCPSensor.py`).

Hex strings (Python `data64_hex`) are modelled as lists of hexadecimal digit
values; byte strings as lists of byte values.  Python dicts are modelled as
association lists with the first binding of a key authoritative, insertion
appending a fresh key at the end and overwriting an existing key in place,
exactly as CPython dicts behave.  Fallible Python operations (`int(s, 16)`,
missing dict keys, undefined names, missing attributes) are modelled with
`Except String`.  Two calls in `sensorCommon.py` raise unconditionally:
`datetime.now()` at line 105 (line 1 imports the *module* `datetime`, which
has no attribute `now`, an `AttributeError`), and `call_process_function` at
line 95 (the name is defined nowhere, a `NameError`); both are embedded as
the errors they raise, with the code behind them kept faithfully as the dead
code it is.
-/

namespace NMEA2000

instance {ε α : Type} [DecidableEq ε] [DecidableEq α] : DecidableEq (Except ε α) := fun x y =>
  match x, y with
  | .error a, .error b =>
    if h : a = b then .isTrue (by rw [h]) else .isFalse (by simp [h])
  | .ok a, .ok b =>
    if h : a = b then .isTrue (by rw [h]) else .isFalse (by simp [h])
  | .error _, .ok _ => .isFalse (by simp)
  | .ok _, .error _ => .isFalse (by simp)

/-- A hex string: the list of its hexadecimal digit values. -/
abbrev Hex := List Nat

/-- Python `int(s, 16)`: raises `ValueError` on the empty string or on a
character that is not a hex digit. -/
def hexToInt (s : Hex) : Except String Nat :=
  if s = [] then .error "ValueError"
  else if s.all (· < 16) then .ok (s.foldl (fun a d => 16 * a + d) 0)
  else .error "ValueError"

/-- Python slice `s[-2:]`. -/
def last2 (s : Hex) : Hex := s.drop (s.length - 2)

/-- Python slice `s[-4:-2]`. -/
def penult2 (s : Hex) : Hex := (s.take (s.length - 2)).drop (s.length - 4)

/-- Python slice `s[:-2]`. -/
def dropLast2 (s : Hex) : Hex := s.take (s.length - 2)

/-- Python slice `s[:-4]`. -/
def dropLast4 (s : Hex) : Hex := s.take (s.length - 4)

/-- Python `k in d` for a dict modelled as an association list. -/
def dictMem {α : Type} (k : Nat) (l : List (Nat × α)) : Bool :=
  (l.lookup k).isSome

/-- Python `d[k] = v`: overwrite an existing binding in place, else append. -/
def dictInsert {α : Type} (k : Nat) (v : α) : List (Nat × α) → List (Nat × α)
  | [] => [(k, v)]
  | p :: l => if p.1 = k then (k, v) :: l else p :: dictInsert k v l

/-- Python `del d[k]`. -/
def dictErase {α : Type} (k : Nat) (l : List (Nat × α)) : List (Nat × α) :=
  l.filter (fun p => p.1 != k)

/-- Insert one binding into a key-sorted list (helper for `sortByKey`). -/
def insertByKey (p : Nat × Hex) : List (Nat × Hex) → List (Nat × Hex)
  | [] => [p]
  | q :: l => if p.1 ≤ q.1 then p :: q :: l else q :: insertByKey p l

/-- Python `sorted(d)` followed by indexing: the bindings ordered by
ascending key. -/
def sortByKey (l : List (Nat × Hex)) : List (Nat × Hex) :=
  l.foldr insertByKey []

/-- Reassembly state for one PGN (`hass.data[fast_packet_key][pgn]`).
The fresh dict created at `sensorCommon.py:15` has no `'sequence_counter'`
key, hence the `Option`. -/
structure PgnEntry where
  frames : List (Nat × Hex)
  payload_length : Nat
  bytes_stored : Nat
  sequence_counter : Option Nat
deriving DecidableEq

/-- `{'frames': {}, 'payload_length': 0, 'bytes_stored': 0}` from
`sensorCommon.py:15`. -/
def emptyEntry : PgnEntry :=
  { frames := [], payload_length := 0, bytes_stored := 0, sequence_counter := none }

/-- The per-instance fast-packet reassembly table. -/
abbrev FastPacketTable := List (Nat × PgnEntry)

/-- Throttle state (`hass.data[smart2000timestamp_key]`): the
`last_processed` map and the `min_interval`; timestamps are abstracted as
integers. -/
structure ThrottleState where
  last_processed : List (Nat × Int)
  min_interval : Int
deriving DecidableEq

/-- `datetime.now()` at `sensorCommon.py:105`.  Line 1 of the module is
`import datetime`, so the name `datetime` is the *module* object, which has
no attribute `now` (`datetime.datetime.now()` would be needed): every call
raises `AttributeError` and no timestamp is ever produced. -/
def datetime_now : Except String Int := .error "AttributeError"

/-- `can_process` (`sensorCommon.py:101-114`): line 105 evaluates
`datetime.now()`, which raises `AttributeError` on every invocation, so the
accept-and-record logic of lines 106-114 — admit and record `now` when the
PGN has no recorded acceptance or enough time has passed, otherwise refuse
recording nothing — is dead code, embedded below faithfully. -/
def can_process (th : ThrottleState) (pgn_id : Nat) : Except String (Bool × ThrottleState) :=
  match datetime_now with
  | .error e => .error e
  | .ok now =>
    match th.last_processed.lookup pgn_id with
    | none => .ok (true, { th with last_processed := dictInsert pgn_id now th.last_processed })
    | some t =>
      if now - t ≥ th.min_interval then
        .ok (true, { th with last_processed := dictInsert pgn_id now th.last_processed })
      else
        .ok (false, th)

/-- One call to the downstream collaborator the code attempts at
`sensorCommon.py:95`: the PGN, the combined hex string computed at line 88
and its integer value computed at line 89. -/
structure Emission where
  pgn : Nat
  combined_hex : Hex
  combined_int : Nat
deriving DecidableEq

/-- Result of one `process_fast_packet` call: the updated reassembly table,
the updated throttle state, and the emissions performed. -/
structure FPResult where
  table : FastPacketTable
  throttle : ThrottleState
  emissions : List Emission
deriving DecidableEq

/-- The loop body of `combine_pgn_frames` (`sensorCommon.py:193-195`): iterate
the frames in ascending `frame_counter` order, prepending each payload. -/
def combineFrames (frames : List (Nat × Hex)) : Hex :=
  (sortByKey frames).foldl (fun acc p => p.2 ++ acc) []

/-- `combine_pgn_frames` (`sensorCommon.py:181-198`); returns `None` when the
PGN has no entry. -/
def combine_pgn_frames (table : FastPacketTable) (pgn : Nat) : Option Hex :=
  match table.lookup pgn with
  | none => none
  | some e => some (combineFrames e.frames)

/-- The call `call_process_function(...)` at `sensorCommon.py:95`: the name
`call_process_function` is defined nowhere in the module and not imported, so
reaching line 95 raises `NameError`; the `del` at line 98 that would remove
the completed entry is therefore unreachable. -/
def call_process_function : Except String Unit := .error "NameError"

/-- Lines 63-98 of `sensorCommon.py`: store one frame payload, update
`bytes_stored`, and on completion combine and emit.  `int(combined_payload_hex,
16)` at line 89 can raise `ValueError` (empty string); `int(None, 16)` would
raise `TypeError`; and the emission call at line 95 names the undefined
`call_process_function`, so every completed sequence raises `NameError` there
and the `del hass.data[fast_packet_key][pgn]` at line 98 (the dead code in
the final branch below) never runs. -/
def storeAndEmit (pgn : Nat) (table : FastPacketTable) (th : ThrottleState)
    (frame_counter : Nat) (entry0 : PgnEntry) (data_payload_hex : Hex) :
    Except String FPResult :=
  let byte_length := data_payload_hex.length / 2
  let entry : PgnEntry := { entry0 with
    frames := dictInsert frame_counter data_payload_hex entry0.frames,
    bytes_stored := entry0.bytes_stored + byte_length }
  let table1 := dictInsert pgn entry table
  if entry.payload_length ≤ entry.bytes_stored then
    match combine_pgn_frames table1 pgn with
    | none => .error "TypeError"
    | some combined =>
      match hexToInt combined with
      | .error e => .error e
      | .ok combined_int =>
        match call_process_function with
        | .error e => .error e
        | .ok _ =>
          .ok ⟨dictErase pgn table1, th, [⟨pgn, combined, combined_int⟩]⟩
  else
    .ok ⟨table1, th, []⟩

/-- `process_fast_packet` (`sensorCommon.py:9-98`).  The table and throttle
state are passed and returned explicitly. -/
def process_fast_packet (pgn : Nat) (table0 : FastPacketTable) (th0 : ThrottleState)
    (data64_hex : Hex) : Except String FPResult :=
  -- lines 14-15: create the storage structure if absent
  let table := if dictMem pgn table0 then table0 else dictInsert pgn emptyEntry table0
  let pgn_data := (table.lookup pgn).getD emptyEntry
  -- line 20: last_byte = int(data64_hex[-2:], 16)
  match hexToInt (last2 data64_hex) with
  | .error e => .error e
  | .ok last_byte =>
    let sequence_counter := (last_byte >>> 5) &&& 7
    let frame_counter := last_byte &&& 31
    if frame_counter = 0 then
      -- line 28: the throttle gate, consulted only here; `can_process` raises
      -- on every call, so both branches below it are dead code
      match can_process th0 pgn with
      | .error e => .error e
      | .ok (false, th) => .ok ⟨table, th, []⟩
      | .ok (true, th) =>
        -- lines 39-50: read the declared total length, reset the entry
        match hexToInt (penult2 data64_hex) with
        | .error e => .error e
        | .ok total_bytes =>
          storeAndEmit pgn table th frame_counter
            ⟨[], total_bytes, 0, some sequence_counter⟩ (dropLast4 data64_hex)
    else
      -- line 31: first frame not yet received
      if pgn_data.payload_length = 0 then .ok ⟨table, th0, []⟩
      else
        -- line 53: pgn_data['sequence_counter'] raises KeyError when unset
        match pgn_data.sequence_counter with
        | none => .error "KeyError"
        | some sc =>
          if sequence_counter ≠ sc then .ok ⟨table, th0, []⟩
          else if dictMem frame_counter pgn_data.frames then .ok ⟨table, th0, []⟩
          else storeAndEmit pgn table th0 frame_counter pgn_data (dropLast2 data64_hex)

/-- Feed a list of frames for one PGN through `process_fast_packet`,
threading the table and throttle state and collecting the emissions. -/
def run_fast_packets (pgn : Nat) (table : FastPacketTable) (th : ThrottleState) :
    List Hex → Except String FPResult
  | [] => .ok ⟨table, th, []⟩
  | d :: ds =>
    match process_fast_packet pgn table th d with
    | .error e => .error e
    | .ok r =>
      match run_fast_packets pgn r.table r.throttle ds with
      | .error e => .error e
      | .ok r2 => .ok ⟨r2.table, r2.throttle, r.emissions ++ r2.emissions⟩

/-- `is_pgn_allowed_based_on_lists` (`sensorCommon.py:117-135`). -/
def is_pgn_allowed_based_on_lists (pgn : Nat) (pgn_include_list pgn_exclude_list : List Nat) : Bool :=
  if !pgn_include_list.isEmpty then pgn_include_list.contains pgn
  else if !pgn_exclude_list.isEmpty then !pgn_exclude_list.contains pgn
  else true

/-- The PGN filter rule as the spec states it (section 4.3), to be compared
with the code's `is_pgn_allowed_based_on_lists`. -/
def allowedSpec (pgn : Nat) (include_set exclude_set : List Nat) : Prop :=
  if include_set ≠ [] then pgn ∈ include_set
  else if exclude_set ≠ [] then pgn ∉ exclude_set
  else True

/-- The combination rule as the claim states it: stored frame payloads
concatenated in ascending `frame_counter` order, trimmed to exactly
`payload_length` bytes (two hex digits per byte), to be compared with the
code's `combineFrames`. -/
def combineSpecAscTrim (frames : List (Nat × Hex)) (payload_length : Nat) : Hex :=
  ((sortByKey frames).foldl (fun acc p => acc ++ p.2) []).take (2 * payload_length)

/-- Python `bytes.find(b, start)`: first index of `b` at or after `start`
(a negative `start` counts from the end), `-1` when absent. -/
def pyFind (buf : List Nat) (b : Nat) (start : Int) : Int :=
  let s : Nat := if start < 0 then (buf.length + start).toNat else start.toNat
  match (buf.drop s).findIdx? (fun x => x == b) with
  | none => -1
  | some i => ((s + i : Nat) : Int)

/-- Clamp one Python slice endpoint (negative values count from the end). -/
def pySliceIdx (len : Nat) (i : Int) : Nat :=
  if i < 0 then (len + i).toNat else min i.toNat len

/-- Python slice `buf[a:b]`. -/
def pySlice (buf : List Nat) (a b : Int) : List Nat :=
  (buf.take (pySliceIdx buf.length b)).drop (pySliceIdx buf.length a)

lemma pyFind_nil {b : Nat} {st : Int} : pyFind [] b st = -1 := by
  simp [pyFind]

lemma pyFind_nonneg (buf : List Nat) (b : Nat) (st : Int)
    (h : pyFind buf b st ≠ -1) : 0 ≤ pyFind buf b st := by
  unfold pyFind at h ⊢
  cases hf : (buf.drop (if st < 0 then (buf.length + st).toNat else st.toNat)).findIdx?
      (fun x => x == b) with
  | none => simp [hf] at h
  | some i =>
    simp only [hf]
    exact Int.natCast_nonneg _

lemma pySliceIdx_natCast (len : Nat) : pySliceIdx len (len : Int) = len := by
  simp [pySliceIdx]

lemma pySliceIdx_nonneg_arg (len : Nat) (k : Int) (h : 0 ≤ k) :
    pySliceIdx len k = min k.toNat len := by
  rw [pySliceIdx, if_neg (by omega)]

lemma length_pySlice_rest (buf : List Nat) (k : Int) (h0 : 0 ≤ k) (hb : buf ≠ []) :
    (pySlice buf (k + 1) (buf.length : Int)).length < buf.length := by
  have hlen : 0 < buf.length := List.length_pos.mpr hb
  rw [pySlice, pySliceIdx_natCast, List.take_length,
    pySliceIdx_nonneg_arg _ _ (by omega), List.length_drop]
  have h1 : 1 ≤ (k + 1).toNat := by omega
  have h2 : 1 ≤ min (k + 1).toNat buf.length := le_min h1 hlen
  omega

/-- The inner `while True` of `SerialSensor.read_loop`
(`SerialSensor.py:75-92`): repeatedly extract `buffer[start:end+1]` between
the `0xAA` and `0x55` markers, forward it when longer than 2 bytes, and keep
the tail; stop when either marker is missing.  Returns the forwarded packets
and the leftover buffer. -/
def extractPackets (buffer : List Nat) : List (List Nat) × List Nat :=
  let start := pyFind buffer 0xAA 0
  let stop := pyFind buffer 0x55 start
  if h : start = -1 ∨ stop = -1 then ([], buffer)
  else
    let packet := pySlice buffer start (stop + 1)
    let rest := pySlice buffer (stop + 1) (buffer.length : Int)
    let res := extractPackets rest
    (if packet.length > 2 then packet :: res.1 else res.1, res.2)
termination_by buffer.length
decreasing_by
  push_neg at h
  have hb : buffer ≠ [] := by
    intro he
    subst he
    exact h.1 pyFind_nil
  exact length_pySlice_rest buffer _ (pyFind_nonneg _ _ _ h.2) hb

/-- `SerialSensor.read_loop` (`SerialSensor.py:58-97`): consume reads from
the stream (a list of chunks; the empty chunk is end of stream), buffering
and delimiting; on end of stream a non-empty buffer is forwarded whole.
Returns the list of buffers handed to `process_packet`. -/
def read_loop : List Nat → List (List Nat) → List (List Nat)
  | _, [] => []
  | buffer, chunk :: rest =>
    if chunk = [] then
      if buffer = [] then [] else [buffer]
    else
      let r := extractPackets (buffer ++ chunk)
      r.1 ++ read_loop r.2 rest

/-- Python `int.from_bytes(l, byteorder='big')`. -/
def bytesToIntBE (l : List Nat) : Nat := l.foldl (fun a b => 256 * a + b) 0

/-- The record decoded from one physical frame. -/
structure CanFrame where
  data_length : Nat
  frame_id : List Nat
  frame_id_int : Nat
  source_id : Nat
  pgn_id : Nat
  can_data : List Nat
deriving DecidableEq

/-- `process_packet` (`sensorCommon.py:202-238`, same layout as
`TCPSensor.process_packet`): decode one frame body with no delimiters.
`packet[0]` raises `IndexError` on an empty packet. -/
def process_packet (packet : List Nat) : Except String CanFrame :=
  match packet with
  | [] => .error "IndexError"
  | type_byte :: _ =>
    let data_length := type_byte &&& 0x0F
    let frame_id := (pySlice packet 1 5).reverse
    let frame_id_int := bytesToIntBE frame_id
    let source_id := frame_id_int &&& 0xFF
    let pgn_id := (frame_id_int >>> 8) &&& 0x3FFFF
    let can_data := (pySlice packet 5 (5 + (data_length : Int))).reverse
    .ok ⟨data_length, frame_id, frame_id_int, source_id, pgn_id, can_data⟩

/-- `SerialSensor.process_packet` (`SerialSensor.py:131-174`): reject packets
shorter than 7 bytes, strip the delimiter bytes, then decode.  Note the
offsets: after `packet = packet[1:-1]` the code still reads the type byte at
index 1 and the frame id at `[2:6]`.  The call to the undefined name
`parse_frame` at line 138 is elided (its result is unused). -/
def serial_process_packet (packet0 : List Nat) : Option CanFrame :=
  if packet0.length < 7 then none
  else
    let packet := pySlice packet0 1 ((packet0.length : Int) - 1)
    let type_byte := packet.getD 1 0
    let data_length := type_byte &&& 0x0F
    let frame_id := (pySlice packet 2 6).reverse
    let frame_id_int := bytesToIntBE frame_id
    let source_id := frame_id_int &&& 0xFF
    let pgn_id := (frame_id_int >>> 8) &&& 0x3FFFF
    let can_data := (pySlice packet 6 (6 + (data_length : Int))).reverse
    some ⟨data_length, frame_id, frame_id_int, source_id, pgn_id, can_data⟩

/-- Sum of the byte lengths (`len(hex) // 2`) of the stored frame payloads. -/
def sumBytes (l : List (Nat × Hex)) : Nat :=
  (l.map (fun p => p.2.length / 2)).sum

/-- The spec's invariant on one reassembly entry: `bytes_stored` equals the
sum of the byte lengths of the stored frame payloads. -/
def entryInv (e : PgnEntry) : Prop :=
  e.bytes_stored = sumBytes e.frames

/-- Every entry of the reassembly table satisfies `entryInv`. -/
def tableInv (t : FastPacketTable) : Prop :=
  ∀ pgn e, t.lookup pgn = some e → entryInv e

section DictLemmas

variable {α : Type}

lemma lookup_cons_eq (a : Nat) (p : Nat × α) (l : List (Nat × α)) :
    ((p :: l).lookup a) = if a = p.1 then some p.2 else l.lookup a := by
  rcases p with ⟨b, v⟩
  by_cases h : a = b
  · simp [List.lookup, h]
  · have hb : (a == b) = false := beq_eq_false_iff_ne.mpr h
    simp [List.lookup, hb, h]

lemma lookup_dictInsert_self (k : Nat) (v : α) (l : List (Nat × α)) :
    (dictInsert k v l).lookup k = some v := by
  induction l with
  | nil => simp [dictInsert, lookup_cons_eq]
  | cons p l ih =>
    by_cases hp : p.1 = k
    · simp [dictInsert, hp, lookup_cons_eq]
    · have hk : ¬ k = p.1 := fun he => hp he.symm
      simp [dictInsert, hp, lookup_cons_eq, hk, ih]

lemma lookup_dictInsert_ne (k : Nat) (v : α) (k' : Nat) (l : List (Nat × α))
    (h : k' ≠ k) : (dictInsert k v l).lookup k' = l.lookup k' := by
  induction l with
  | nil => simp [dictInsert, lookup_cons_eq, h]
  | cons p l ih =>
    by_cases hp : p.1 = k
    · subst hp
      simp [dictInsert, lookup_cons_eq, h]
    · simp [dictInsert, hp, lookup_cons_eq, ih]

lemma dictInsert_fresh (k : Nat) (v : α) (l : List (Nat × α))
    (h : l.lookup k = none) : dictInsert k v l = l ++ [(k, v)] := by
  induction l with
  | nil => simp [dictInsert]
  | cons p l ih =>
    rw [lookup_cons_eq] at h
    by_cases hk : k = p.1
    · rw [if_pos hk] at h
      exact absurd h (by simp)
    · rw [if_neg hk] at h
      have hne : ¬ p.1 = k := fun he => hk he.symm
      simp [dictInsert, hne, ih h]

lemma dictMem_eq_false_iff (k : Nat) (l : List (Nat × α)) :
    dictMem k l = false ↔ l.lookup k = none := by
  unfold dictMem
  cases l.lookup k <;> simp

lemma dictMem_eq_true_of_lookup (k : Nat) (v : α) (l : List (Nat × α))
    (h : l.lookup k = some v) : dictMem k l = true := by
  simp [dictMem, h]

end DictLemmas

lemma foldl_prepend_eq (m : List (Nat × Hex)) (acc : Hex) :
    m.foldl (fun acc p => p.2 ++ acc) acc = (m.reverse.map Prod.snd).flatten ++ acc := by
  induction m generalizing acc with
  | nil => simp
  | cons p m ih =>
    simp only [List.foldl_cons, ih, List.reverse_cons, List.map_append, List.flatten_append]
    simp

lemma combineFrames_eq_flatten (l : List (Nat × Hex)) :
    combineFrames l = ((sortByKey l).reverse.map Prod.snd).flatten := by
  rw [combineFrames, foldl_prepend_eq]
  simp

lemma hexToInt_ok (s : Hex) (h1 : s ≠ []) (h2 : ∀ d ∈ s, d < 16) :
    hexToInt s = .ok (s.foldl (fun a d => 16 * a + d) 0) := by
  rw [hexToInt, if_neg h1, if_pos]
  simpa using h2

lemma storeAndEmit_incomplete (pgn : Nat) (table : FastPacketTable) (th : ThrottleState)
    (fc : Nat) (e0 : PgnEntry) (p : Hex)
    (h : e0.bytes_stored + p.length / 2 < e0.payload_length) :
    storeAndEmit pgn table th fc e0 p =
      .ok ⟨dictInsert pgn ⟨dictInsert fc p e0.frames, e0.payload_length,
        e0.bytes_stored + p.length / 2, e0.sequence_counter⟩ table, th, []⟩ := by
  obtain ⟨fr, pl, bs, sc⟩ := e0
  simp only [storeAndEmit]
  rw [if_neg (not_le.mpr h)]

/-- A store that completes the payload reaches line 95 and raises `NameError`
at the undefined `call_process_function` (provided the combined hex is a
non-empty well-formed hex string, so that `int(combined_payload_hex, 16)` at
line 89 succeeds first). -/
lemma storeAndEmit_complete (pgn : Nat) (table : FastPacketTable) (th : ThrottleState)
    (fc : Nat) (e0 : PgnEntry) (p : Hex)
    (h : e0.payload_length ≤ e0.bytes_stored + p.length / 2)
    (hne : combineFrames (dictInsert fc p e0.frames) ≠ [])
    (hdig : ∀ d ∈ combineFrames (dictInsert fc p e0.frames), d < 16) :
    storeAndEmit pgn table th fc e0 p = .error "NameError" := by
  obtain ⟨fr, pl, bs, sc⟩ := e0
  simp only [storeAndEmit]
  rw [if_pos h]
  simp only [combine_pgn_frames, lookup_dictInsert_self]
  rw [hexToInt_ok _ hne hdig]
  rfl

lemma process_cont (pgn : Nat) (table : FastPacketTable) (th : ThrottleState)
    (d : Hex) (lb : Nat) (e : PgnEntry) (sc : Nat)
    (he : table.lookup pgn = some e)
    (hlb : hexToInt (last2 d) = .ok lb) (hfc : lb &&& 31 ≠ 0)
    (hpl : e.payload_length ≠ 0)
    (hsc : e.sequence_counter = some sc)
    (hseq : (lb >>> 5) &&& 7 = sc)
    (hfresh : dictMem (lb &&& 31) e.frames = false) :
    process_fast_packet pgn table th d =
      storeAndEmit pgn table th (lb &&& 31) e (dropLast2 d) := by
  have hmem : dictMem pgn table = true := dictMem_eq_true_of_lookup _ _ _ he
  simp [process_fast_packet, hmem, he, hlb, hfc, hpl, hsc, hseq, hfresh]

lemma sumBytes_append (l1 l2 : List (Nat × Hex)) :
    sumBytes (l1 ++ l2) = sumBytes l1 + sumBytes l2 := by
  simp [sumBytes]

/-- A successful `storeAndEmit` never emits: the only successful exit is the
incomplete branch (line 83's check failing), because the complete branch
raises at line 89 or line 95 before returning. -/
lemma storeAndEmit_ok_no_emissions (pgn : Nat) (table : FastPacketTable)
    (th : ThrottleState) (fc : Nat) (e0 : PgnEntry) (p : Hex) (r : FPResult)
    (hok : storeAndEmit pgn table th fc e0 p = .ok r) : r.emissions = [] := by
  simp only [storeAndEmit] at hok
  split at hok
  · split at hok
    · exact absurd hok (by simp)
    · split at hok
      · exact absurd hok (by simp)
      · exact absurd hok (by simp [call_process_function])
  · rw [Except.ok.injEq] at hok
    subst hok
    rfl

/-- A successful `process_fast_packet` call never emits anything. -/
lemma process_ok_no_emissions (pgn : Nat) (table : FastPacketTable)
    (th : ThrottleState) (d : Hex) (r : FPResult)
    (hok : process_fast_packet pgn table th d = .ok r) : r.emissions = [] := by
  simp only [process_fast_packet] at hok
  generalize (if dictMem pgn table then table else dictInsert pgn emptyEntry table) = T at hok
  split at hok
  · exact absurd hok (by simp)
  · split at hok
    · exact absurd hok (by simp [can_process, datetime_now])
    · split at hok
      · rw [Except.ok.injEq] at hok
        subst hok
        rfl
      · split at hok
        · exact absurd hok (by simp)
        · split at hok
          · rw [Except.ok.injEq] at hok
            subst hok
            rfl
          · split at hok
            · rw [Except.ok.injEq] at hok
              subst hok
              rfl
            · exact storeAndEmit_ok_no_emissions _ _ _ _ _ _ _ hok

lemma entryInv_emptyEntry : entryInv emptyEntry := by
  simp [entryInv, emptyEntry, sumBytes]

lemma tableInv_dictInsert (t : FastPacketTable) (pgn : Nat) (e : PgnEntry)
    (hinv : tableInv t) (he : entryInv e) : tableInv (dictInsert pgn e t) := by
  intro p' e' hl
  by_cases hp : p' = pgn
  · subst hp
    rw [lookup_dictInsert_self] at hl
    cases hl
    exact he
  · rw [lookup_dictInsert_ne _ _ _ _ hp] at hl
    exact hinv _ _ hl

lemma sumBytes_dictInsert_fresh (fc : Nat) (p : Hex) (frames : List (Nat × Hex))
    (h : frames.lookup fc = none) :
    sumBytes (dictInsert fc p frames) = sumBytes frames + p.length / 2 := by
  rw [dictInsert_fresh _ _ _ h, sumBytes_append]
  simp [sumBytes]

lemma storeAndEmit_inv (pgn : Nat) (table : FastPacketTable) (th : ThrottleState)
    (fc : Nat) (e0 : PgnEntry) (p : Hex) (r : FPResult)
    (hinv : tableInv table)
    (he : e0.bytes_stored + p.length / 2 = sumBytes (dictInsert fc p e0.frames))
    (hok : storeAndEmit pgn table th fc e0 p = .ok r) : tableInv r.table := by
  simp only [storeAndEmit] at hok
  split at hok
  · split at hok
    · exact absurd hok (by simp)
    · split at hok
      · exact absurd hok (by simp)
      · exact absurd hok (by simp [call_process_function])
  · rw [Except.ok.injEq] at hok
    subst hok
    exact tableInv_dictInsert _ _ _ hinv he

lemma tableInv_setup (pgn : Nat) (table : FastPacketTable) (hinv : tableInv table) :
    tableInv (if dictMem pgn table then table else dictInsert pgn emptyEntry table) := by
  split
  · exact hinv
  · exact tableInv_dictInsert _ _ _ hinv entryInv_emptyEntry

lemma process_preserves_inv (pgn : Nat) (table : FastPacketTable)
    (th : ThrottleState) (d : Hex) (r : FPResult)
    (hinv : tableInv table)
    (hok : process_fast_packet pgn table th d = .ok r) : tableInv r.table := by
  have hinv1 := tableInv_setup pgn table hinv
  simp only [process_fast_packet] at hok
  generalize hT : (if dictMem pgn table then table else dictInsert pgn emptyEntry table) = T at hok
  rw [hT] at hinv1
  split at hok
  · exact absurd hok (by simp)
  · split at hok
    · exact absurd hok (by simp [can_process, datetime_now])
    · split at hok
      · rw [Except.ok.injEq] at hok
        subst hok
        exact hinv1
      · split at hok
        · exact absurd hok (by simp)
        · split at hok
          · rw [Except.ok.injEq] at hok
            subst hok
            exact hinv1
          · split at hok
            · rw [Except.ok.injEq] at hok
              subst hok
              exact hinv1
            · next hmemf =>
              refine storeAndEmit_inv _ _ _ _ _ _ _ hinv1 ?_ hok
              simp only [Bool.not_eq_true] at hmemf
              have hfree :=(dictMem_eq_false_iff _
                ((T.lookup pgn).getD emptyEntry).frames).mp hmemf
              rw [sumBytes_dictInsert_fresh _ _ _ hfree]
              have hentry : ((T.lookup pgn).getD emptyEntry).bytes_stored =
                  sumBytes ((T.lookup pgn).getD emptyEntry).frames := by
                cases hl : T.lookup pgn with
                | none => simpa using entryInv_emptyEntry
                | some e' => simpa using hinv1 _ _ hl
              omega

lemma storeAndEmit_throttle_map (pgn : Nat) (table : FastPacketTable)
    (th th' : ThrottleState) (fc : Nat) (e0 : PgnEntry) (p : Hex) :
    storeAndEmit pgn table th fc e0 p =
      Except.map (fun r => ⟨r.table, th, r.emissions⟩)
        (storeAndEmit pgn table th' fc e0 p) := by
  simp only [storeAndEmit]
  split
  · split
    · simp [Except.map]
    · split
      · simp [Except.map]
      · simp [call_process_function, Except.map]
  · simp [Except.map]

lemma combineFrames_012 (p0 p1 p2 : Hex) :
    combineFrames [(0, p0), (1, p1), (2, p2)] = p2 ++ (p1 ++ p0) := by
  norm_num [combineFrames, sortByKey, insertByKey]

lemma combineFrames_021 (p0 p1 p2 : Hex) :
    combineFrames [(0, p0), (2, p2), (1, p1)] = p2 ++ (p1 ++ p0) := by
  norm_num [combineFrames, sortByKey, insertByKey]

/-- C3: the claim's premise — a frame-counter-0 frame that the Throttle Gate
*rejects* — never occurs in the code as written.  `can_process` raises
`AttributeError` on every invocation (`datetime.now()` at
`sensorCommon.py:105` under line 1's `import datetime`), even for a PGN with
a recorded acceptance; so every frame-counter-0 frame makes
`process_fast_packet` raise instead of dropping silently, whether the PGN
had an entry or not. -/
theorem C3_throttle_rejection_unreachable :
    can_process ⟨[(7, 0)], 5⟩ 7 = .error "AttributeError"
    ∧ process_fast_packet 7 [] ⟨[(7, 0)], 5⟩ [0, 0, 0, 0] = .error "AttributeError"
    ∧ process_fast_packet 7 [(7, emptyEntry)] ⟨[(7, 0)], 5⟩ [0, 0, 0, 0] =
        .error "AttributeError" := by decide

/-- C4: the frame-processing core does raise on the degenerate frame `0000`.
The call raises `AttributeError` first (`can_process` at line 28 evaluates
`datetime.now()` at line 105); and behind that gate, the store this frame
would perform — empty payload into a fresh entry declaring `payload_length`
0 — combines to the empty hex string, so `int('', 16)` at
`sensorCommon.py:89` raises `ValueError` instead of degrading to a drop. -/
theorem C4_degenerate_frame_raises :
    process_fast_packet 1 [] ⟨[], 5⟩ [0, 0, 0, 0] = .error "AttributeError"
    ∧ storeAndEmit 1 [(1, emptyEntry)] ⟨[], 5⟩ 0 ⟨[], 0, 0, some 0⟩ [] =
        .error "ValueError" := by decide

/-- C5: on the delimiter-bounded frame `AA 23 11 22 33 44 01 02 03 55`,
`SerialSensor.process_packet` (which strips the delimiters but keeps the
unstripped offsets) extracts `data_length` 1 from byte `0x11`, frame id
`22 33 44 01` reversed, source `0x22` and data `[02]` — not the claimed
values.  The sibling decoder `process_packet` of `sensorCommon.py`, applied
to the delimiter-stripped body, produces exactly the claimed decoding:
`data_length` 3 from `0x23`, frame id `44 33 22 11` reversed, source its low
byte `0x11`, `pgn = (frame_id_int >>> 8) &&& 0x3FFFF`, data `[03, 02, 01]`. -/
theorem C5_serial_offset_bug :
    serial_process_packet [0xAA, 0x23, 0x11, 0x22, 0x33, 0x44, 0x01, 0x02, 0x03, 0x55] =
      some ⟨1, [0x01, 0x44, 0x33, 0x22], 0x01443322, 0x22, 0x14433, [0x02]⟩
    ∧ process_packet [0x23, 0x11, 0x22, 0x33, 0x44, 0x01, 0x02, 0x03] =
        .ok ⟨3, [0x44, 0x33, 0x22, 0x11], 0x44332211, 0x11,
          (0x44332211 >>> 8) &&& 0x3FFFF, [0x03, 0x02, 0x01]⟩
    ∧ (0x44332211 >>> 8) &&& 0x3FFFF = 0x3322
    ∧ (1 : Nat) ≠ 3 := by decide

/-- C6: the PGN filter returns exactly what the spec states — a non-empty
include list wins outright (the exclude list is ignored), else a non-empty
exclude list rejects its members, else everything is allowed; in particular
`allowed(130306, include={130306}, exclude={130306})` is true. -/
theorem C6_filter_spec :
    (∀ (pgn : Nat) (inc exc : List Nat),
      is_pgn_allowed_based_on_lists pgn inc exc = true ↔ allowedSpec pgn inc exc)
    ∧ is_pgn_allowed_based_on_lists 130306 [130306] [130306] = true := by
  constructor
  · intro pgn inc exc
    unfold is_pgn_allowed_based_on_lists allowedSpec
    cases inc <;> cases exc <;> simp
  · decide

/-- C10: when a read returns no data (end of stream) while the internal
buffer is non-empty, `SerialSensor.read_loop` forwards the entire remaining
buffer to `process_packet` as one single frame, delimiters or not. -/
theorem C10_eof_flush (buffer : List Nat) (rest : List (List Nat))
    (hb : buffer ≠ []) : read_loop buffer ([] :: rest) = [buffer] := by
  rw [read_loop]
  simp [hb]

/-- Witness for C10: the buffer `[1, 2, 3]` contains neither the `0xAA` start
marker nor the `0x55` end marker, yet is forwarded whole at end of stream. -/
theorem C10_eof_flush_witness :
    ([1, 2, 3] : List Nat) ≠ []
    ∧ (0xAA : Nat) ∉ ([1, 2, 3] : List Nat)
    ∧ (0x55 : Nat) ∉ ([1, 2, 3] : List Nat)
    ∧ read_loop [1, 2, 3] [[]] = [[1, 2, 3]] :=
  ⟨by decide, by decide, by decide, C10_eof_flush [1, 2, 3] [] (by decide)⟩

/-- C7: the Throttle Gate never performs its accept/refuse decision —
`can_process` raises `AttributeError` on every call, for every throttle
state and PGN (`datetime.now()` at `sensorCommon.py:105`); and the gate is
indeed consulted only for frames with frame counter 0: for a nonzero frame
counter the outcome of `process_fast_packet` does not depend on the throttle
state, which is returned unchanged. -/
theorem C7_throttle_gate_crash :
    (∀ (th : ThrottleState) (pgn : Nat), can_process th pgn = .error "AttributeError")
    ∧ (∀ (pgn : Nat) (table : FastPacketTable) (th th' : ThrottleState)
        (d : Hex) (lb : Nat), hexToInt (last2 d) = .ok lb → lb &&& 31 ≠ 0 →
        process_fast_packet pgn table th d =
          Except.map (fun r => ⟨r.table, th, r.emissions⟩)
            (process_fast_packet pgn table th' d)) := by
  constructor
  · intro th pgn
    rfl
  · intro pgn table th th' d lb hlb hfc
    simp only [process_fast_packet, hlb]
    rw [if_neg hfc, if_neg hfc]
    generalize (if dictMem pgn table then table else dictInsert pgn emptyEntry table) = T
    split
    · simp [Except.map]
    · split
      · simp [Except.map]
      · split
        · simp [Except.map]
        · split
          · simp [Except.map]
          · exact storeAndEmit_throttle_map _ _ _ _ _ _ _

/-- Witness for C7: `can_process` raises on a concrete fresh PGN, and a
continuation frame (`lb = 1`, frame counter 1) is processed identically
under two different throttle states, returning the input throttle state. -/
theorem C7_throttle_gate_crash_witness :
    can_process ⟨[], 5⟩ 3 = .error "AttributeError"
    ∧ process_fast_packet 3 [] ⟨[], 5⟩ [0, 1] =
        Except.map (fun r => ⟨r.table, (⟨[], 5⟩ : ThrottleState), r.emissions⟩)
          (process_fast_packet 3 [] ⟨[(9, 0)], 5⟩ [0, 1]) :=
  ⟨C7_throttle_gate_crash.1 ⟨[], 5⟩ 3,
   C7_throttle_gate_crash.2 3 [] ⟨[], 5⟩ ⟨[(9, 0)], 5⟩ [0, 1] 1 (by decide) (by decide)⟩

/-- C8: replaying a frame whose nonzero frame counter is already stored for
an in-progress entry (any entry whose `sequence_counter` is set whenever its
`payload_length` is nonzero) leaves the whole state — in particular the
entry's `frames` map and `bytes_stored` — unchanged, and emits nothing. -/
theorem C8_duplicate_noop (pgn : Nat) (table : FastPacketTable)
    (th : ThrottleState) (d : Hex) (e : PgnEntry) (lb : Nat)
    (he : table.lookup pgn = some e)
    (hwf : e.payload_length ≠ 0 → e.sequence_counter ≠ none)
    (hlb : hexToInt (last2 d) = .ok lb) (hfc : lb &&& 31 ≠ 0)
    (hdup : dictMem (lb &&& 31) e.frames = true) :
    process_fast_packet pgn table th d = .ok ⟨table, th, []⟩ := by
  have hmem : dictMem pgn table = true := dictMem_eq_true_of_lookup _ _ _ he
  by_cases hpl : e.payload_length = 0
  · simp [process_fast_packet, hmem, he, hlb, hfc, hpl]
  · obtain ⟨sc, hsc⟩ : ∃ sc, e.sequence_counter = some sc := by
      cases h' : e.sequence_counter with
      | none => exact absurd h' (hwf hpl)
      | some sc => exact ⟨sc, rfl⟩
    by_cases hseq : (lb >>> 5) &&& 7 = sc
    · simp [process_fast_packet, hmem, he, hlb, hfc, hpl, hsc, hseq, hdup]
    · simp [process_fast_packet, hmem, he, hlb, hfc, hpl, hsc, hseq]

/-- Witness for C8: frame counter 1 is already stored for PGN 3; replaying
it leaves the table exactly as it was. -/
theorem C8_duplicate_noop_witness :
    ([(3, (⟨[(1, [0, 0])], 5, 1, some 0⟩ : PgnEntry))] : FastPacketTable).lookup 3 =
      some ⟨[(1, [0, 0])], 5, 1, some 0⟩
    ∧ process_fast_packet 3 [(3, ⟨[(1, [0, 0])], 5, 1, some 0⟩)] ⟨[], 5⟩ [0, 0, 0, 1] =
        .ok ⟨[(3, ⟨[(1, [0, 0])], 5, 1, some 0⟩)], ⟨[], 5⟩, []⟩ :=
  ⟨by decide,
    C8_duplicate_noop 3 [(3, ⟨[(1, [0, 0])], 5, 1, some 0⟩)] ⟨[], 5⟩ [0, 0, 0, 1]
      ⟨[(1, [0, 0])], 5, 1, some 0⟩ 1 (by decide) (fun _ => by decide)
      (by decide) (by decide) (by decide)⟩

/-- C9: every entry of the reassembly table keeps `bytes_stored` equal to the
sum of the byte lengths of its stored frame payloads: the invariant holds of
the initial empty table and is preserved by every successful
`process_fast_packet` call (initialization, continuation stores, duplicate
and sequence-mismatch drops, no-first-frame drops). -/
theorem C9_bytes_stored_invariant :
    tableInv ([] : FastPacketTable)
    ∧ (∀ (pgn : Nat) (table : FastPacketTable) (th : ThrottleState)
        (d : Hex) (r : FPResult), tableInv table →
        process_fast_packet pgn table th d = .ok r → tableInv r.table) := by
  constructor
  · intro p e h
    simp at h
  · exact process_preserves_inv

/-- Witness for C9: a continuation frame for a PGN with no entry creates the
default entry (0 bytes stored, no frames) and drops the frame; the invariant
holds of the resulting table. -/
theorem C9_bytes_stored_invariant_witness :
    tableInv [(1, emptyEntry)] :=
  C9_bytes_stored_invariant.2 1 [] ⟨[], 5⟩ [0, 1]
    ⟨[(1, emptyEntry)], ⟨[], 5⟩, []⟩ C9_bytes_stored_invariant.1 (by decide)

/-- C2: no complete frame set can ever emit, and no entry is ever removed.
The first frame of any sequence has frame counter 0 and raises
`AttributeError` in the throttle gate before anything is stored; and even
from an already-collecting entry, the continuation store that completes the
payload raises `NameError` at the undefined `call_process_function`
(`sensorCommon.py:95`) before the `del` at line 98, with the entry still
present in the table at the moment of the raise. -/
theorem C2_completion_raises :
    run_fast_packets 1 [] ⟨[], 5⟩ [[0, 1, 0, 2, 0, 3, 0, 0], [0, 4, 0, 5, 0, 1]] =
      .error "AttributeError"
    ∧ process_fast_packet 2 [(2, ⟨[(0, [0, 9])], 2, 1, some 0⟩)] ⟨[], 5⟩ [0, 8, 0, 1] =
        .error "NameError"
    ∧ ([(2, (⟨[(0, [0, 9])], 2, 1, some 0⟩ : PgnEntry))] : FastPacketTable).lookup 2 =
        some ⟨[(0, [0, 9])], 2, 1, some 0⟩ := by decide

/-- C1 counterexample: a continuation frame carrying bytes `04 05` completes
an in-progress entry that already stores bytes `01 02` under frame counter 0
with declared `payload_length` 3.  At the moment the claim asserts an
emission of the ascending-order combination trimmed to 3 bytes (`01 02 04`),
the code emits nothing at all — the completing store raises `NameError` at
the undefined `call_process_function` — and the combined hex it computes at
lines 88-89 just before raising is the stored payloads each *prepended*
(descending frame-counter order), untrimmed: `04 05 01 02`. -/
theorem C1_counterexample :
    process_fast_packet 1 [(1, ⟨[(0, [0, 1, 0, 2])], 3, 2, some 0⟩)] ⟨[], 5⟩
        [0, 4, 0, 5, 0, 1] = .error "NameError"
    ∧ combineFrames [(0, [0, 1, 0, 2]), (1, [0, 4, 0, 5])] = [0, 4, 0, 5, 0, 1, 0, 2]
    ∧ combineSpecAscTrim [(0, [0, 1, 0, 2]), (1, [0, 4, 0, 5])] 3 = [0, 1, 0, 2, 0, 4]
    ∧ ([0, 4, 0, 5, 0, 1, 0, 2] : Hex) ≠ [0, 1, 0, 2, 0, 4] := by decide

/-- C1 (amended): the combined hex computed by `combine_pgn_frames` is the
stored frame payloads each *prepended* while iterating in ascending
`frame_counter` order — i.e. concatenated in descending frame-counter
order — with no trimming to `payload_length`, and it depends only on the
stored frames map (frames arriving 0, 2, 1 combine exactly as 0, 1, 2); but
the combination is never emitted: every successful `process_fast_packet`
call returns no emission, and a continuation store that completes the
payload raises `NameError` at the undefined `call_process_function` before
any emission or deletion. -/
theorem C1_combination_order :
    (∀ frames, combineFrames frames = ((sortByKey frames).reverse.map Prod.snd).flatten)
    ∧ (∀ p0 p1 p2 : Hex, combineFrames [(0, p0), (2, p2), (1, p1)] =
        combineFrames [(0, p0), (1, p1), (2, p2)])
    ∧ (∀ (pgn : Nat) (table : FastPacketTable) (th : ThrottleState) (d : Hex)
        (r : FPResult), process_fast_packet pgn table th d = .ok r → r.emissions = [])
    ∧ (∀ (pgn : Nat) (table : FastPacketTable) (th : ThrottleState) (d : Hex)
        (lb : Nat) (e : PgnEntry) (sc : Nat),
        table.lookup pgn = some e →
        hexToInt (last2 d) = .ok lb → lb &&& 31 ≠ 0 →
        e.payload_length ≠ 0 → e.sequence_counter = some sc →
        (lb >>> 5) &&& 7 = sc → dictMem (lb &&& 31) e.frames = false →
        e.payload_length ≤ e.bytes_stored + (dropLast2 d).length / 2 →
        combineFrames (dictInsert (lb &&& 31) (dropLast2 d) e.frames) ≠ [] →
        (∀ dg ∈ combineFrames (dictInsert (lb &&& 31) (dropLast2 d) e.frames), dg < 16) →
        process_fast_packet pgn table th d = .error "NameError") := by
  refine ⟨combineFrames_eq_flatten, ?_, ?_, ?_⟩
  · intro p0 p1 p2
    rw [combineFrames_021, combineFrames_012]
  · intro pgn table th d r hok
    exact process_ok_no_emissions pgn table th d r hok
  · intro pgn table th d lb e sc he hlb hfc hpl hsc hseq hfresh hcomp hne hdig
    rw [process_cont pgn table th d lb e sc he hlb hfc hpl hsc hseq hfresh]
    exact storeAndEmit_complete pgn table th (lb &&& 31) e (dropLast2 d) hcomp hne hdig

/-- Witness for C1: a concrete completing continuation store (PGN 9,
declared length 2, one byte `07` already stored, incoming byte `06`) raises
`NameError`; and a concrete successful call (a continuation frame with no
prior first frame) returns no emission. -/
theorem C1_combination_order_witness :
    process_fast_packet 9 [(9, ⟨[(0, [0, 7])], 2, 1, some 0⟩)] ⟨[], 5⟩ [0, 6, 0, 1] =
      .error "NameError"
    ∧ (⟨[(5, emptyEntry)], ⟨[], 5⟩, []⟩ : FPResult).emissions = [] :=
  ⟨C1_combination_order.2.2.2 9 [(9, ⟨[(0, [0, 7])], 2, 1, some 0⟩)] ⟨[], 5⟩
      [0, 6, 0, 1] 1 ⟨[(0, [0, 7])], 2, 1, some 0⟩ 0 (by decide) (by decide) (by decide)
      (by decide) (by decide) (by decide) (by decide) (by decide) (by decide) (by decide),
   C1_combination_order.2.2.1 5 [] ⟨[], 5⟩ [0, 1] ⟨[(5, emptyEntry)], ⟨[], 5⟩, []⟩
      (by decide)⟩

end NMEA2000
